import Mathlib

/-!
Shallow embedding of src/usb-darwin.c (muforth OSX USB support).

Each C function manipulates the global operand stack and calls into the
native IOKit layer.  We model:

  * the operand stack as a `List Int` with the head playing the role of
    TOP (Modelled from the spec: the stack macros TOP, ST1, ST2, ST3,
    SP[n] and DROP live in muforth.h, which is not part of the given
    sources; the spec describes an operand stack of cells with
    inputs consumed left-to-right and `found?` encoded as -1/0, so cells
    are modelled as unbounded integers);
  * `abort_zmsg` as a non-local exit carrying its message (Modelled from
    the spec: abort_zmsg is declared in muforth.h; the spec describes it
    as an abort with a fixed human-readable message that terminates the
    current operation);
  * the native IOKit layer as an oracle record per operation whose fields
    give the outcome of each native call, together with a trace of the
    native calls actually issued (with the arguments the claims care
    about: match criteria, timeouts).

kIOReturnSuccess is 0; a nonzero oracle `ior` field models a failing
native call.
-/

/-- One native call issued by the adapter, with the arguments relevant
to the stated properties. -/
inductive NativeEvent where
  | serviceMatching (className : String)
  | getMatchingService (matching : List (String × Int))
  | createPlugin
  | queryTypedInterface
  | releasePlugin
  | usbInterfaceOpen
  | usbInterfaceClose
  | releaseHandle
  | controlRequestTO (noDataTimeout completionTimeout : Int)
  | readPipeTO (pipe : Int) (dataTimeout completionTimeout : Int)
  | writePipeTO (pipe : Int) (dataTimeout completionTimeout : Int)
  | getPipeProps (pipe : Int)
  | deviceRequest
  deriving DecidableEq, Repr

/-- Result of one adapter call: the operand stack afterwards, the abort
message if the call aborted (`none` = normal return), and the trace of
native calls issued. -/
structure MuResult where
  stack : List Int
  aborted : Option String
  trace : List NativeEvent
  deriving DecidableEq, Repr

/-- `add_number_match` (src/usb-darwin.c:18): sets one numeric key in the
matching dictionary.  The four keys used are pairwise distinct, so
CFDictionarySetValue behaves as an insertion. -/
def add_number_match (matching : List (String × Int)) (keyRef : String)
    (value : Int) : List (String × Int) :=
  matching ++ [(keyRef, value)]

/-- Native-layer oracle for the interface-level `mu_usb_find_device`
(src/usb-darwin.c:124): outcome of each native call it may issue. -/
structure FindIntfNative where
  /-- IOServiceMatching returned non-NULL. -/
  serviceMatchingOk : Bool
  /-- io_service_t returned by IOServiceGetMatchingService; 0 = none. -/
  matchingService : Nat
  /-- IOReturn of IOCreatePlugInInterfaceForService. -/
  pluginIor : Int
  /-- pluginInterface came back non-NULL. -/
  pluginNonNull : Bool
  /-- IOReturn of QueryInterface. -/
  queryIor : Int
  /-- intfInterface came back non-NULL. -/
  queryNonNull : Bool
  /-- the intfInterface pointer, as a cell value. -/
  intfHandle : Int
  /-- IOReturn of USBInterfaceOpen. -/
  openIor : Int
  deriving DecidableEq, Repr

/-- Interface-level `mu_usb_find_device` (src/usb-darwin.c:124):
stack effect (vendor-id product-id -- dev -1 | 0). -/
def mu_usb_find_device (nv : FindIntfNative) (s : List Int) : MuResult :=
  match s with
  | top :: st1 :: rest =>
    let t0 := [NativeEvent.serviceMatching "IOUSBInterface"]
    if nv.serviceMatchingOk = false then
      { stack := top :: st1 :: rest,
        aborted := some "IOServiceMatching returned NULL", trace := t0 }
    else
      let matching :=
        add_number_match (add_number_match (add_number_match
          (add_number_match [] "VendorID" st1) "ProductID" top)
          "InterfaceNumber" 0) "ConfigurationValue" 1
      let t1 := t0 ++ [NativeEvent.getMatchingService matching]
      if nv.matchingService = 0 then
        -- DROP(1); TOP = 0;
        { stack := 0 :: rest, aborted := none, trace := t1 }
      else
        let t2 := t1 ++ [NativeEvent.createPlugin]
        if nv.pluginIor ≠ 0 ∨ nv.pluginNonNull = false then
          { stack := top :: st1 :: rest,
            aborted := some "IOCreatePlugInInterfaceForService failed",
            trace := t2 }
        else
          -- QueryInterface, then Release of the plugin, then the ior test
          let t3 := t2 ++ [NativeEvent.queryTypedInterface,
                           NativeEvent.releasePlugin]
          if nv.queryIor ≠ 0 ∨ nv.queryNonNull = false then
            { stack := top :: st1 :: rest,
              aborted := some "QueryInterface failed", trace := t3 }
          else
            let t4 := t3 ++ [NativeEvent.usbInterfaceOpen]
            if nv.openIor ≠ 0 then
              { stack := top :: st1 :: rest,
                aborted := some "USBInterfaceOpen failed", trace := t4 }
            else
              -- ST1 = (addr)intfInterface; TOP = -1;
              { stack := -1 :: nv.intfHandle :: rest, aborted := none,
                trace := t4 }
  | _ => { stack := s, aborted := some "stack underflow", trace := [] }

/-- Native-layer oracle for the device-level `mu_usb_find_device`
(src/usb-darwin.c:34, under WITH_USB_DEVICE). -/
structure FindDevNative where
  serviceMatchingOk : Bool
  matchingService : Nat
  pluginIor : Int
  pluginNonNull : Bool
  queryIor : Int
  queryNonNull : Bool
  devHandle : Int
  deriving DecidableEq, Repr

/-- Device-level `mu_usb_find_device` (src/usb-darwin.c:34): same C name
under WITH_USB_DEVICE; matches only VendorID and ProductID and has no
open step.  Stack effect (vendor-id product-id -- handle -1 | 0). -/
def mu_usb_find_device_dev (nv : FindDevNative) (s : List Int) : MuResult :=
  match s with
  | top :: st1 :: rest =>
    let t0 := [NativeEvent.serviceMatching "IOUSBDevice"]
    if nv.serviceMatchingOk = false then
      { stack := top :: st1 :: rest,
        aborted := some "IOServiceMatching returned NULL", trace := t0 }
    else
      let matching :=
        add_number_match (add_number_match [] "VendorID" st1) "ProductID" top
      let t1 := t0 ++ [NativeEvent.getMatchingService matching]
      if nv.matchingService = 0 then
        { stack := 0 :: rest, aborted := none, trace := t1 }
      else
        let t2 := t1 ++ [NativeEvent.createPlugin]
        if nv.pluginIor ≠ 0 ∨ nv.pluginNonNull = false then
          { stack := top :: st1 :: rest,
            aborted := some "IOCreatePlugInInterfaceForService failed",
            trace := t2 }
        else
          let t3 := t2 ++ [NativeEvent.queryTypedInterface,
                           NativeEvent.releasePlugin]
          if nv.queryIor ≠ 0 ∨ nv.queryNonNull = false then
            { stack := top :: st1 :: rest,
              aborted := some "QueryInterface failed", trace := t3 }
          else
            { stack := -1 :: nv.devHandle :: rest, aborted := none,
              trace := t3 }
  | _ => { stack := s, aborted := some "stack underflow", trace := [] }

/-- `mu_usb_close_device` (src/usb-darwin.c:88): releases the device
handle unconditionally, then DROP(1). -/
def mu_usb_close_device (s : List Int) : MuResult :=
  match s with
  | _top :: rest =>
    { stack := rest, aborted := none, trace := [NativeEvent.releaseHandle] }
  | _ => { stack := s, aborted := some "stack underflow", trace := [] }

/-- `mu_usb_device_request` (src/usb-darwin.c:100): stack effect
(bmRequestType bRequest wValue wIndex wLength buffer device -- ); the
DROP(7) happens before the native DeviceRequest call. -/
def mu_usb_device_request (ior : Int) (s : List Int) : MuResult :=
  match s with
  | _top :: _st1 :: _st2 :: _st3 :: _sp4 :: _sp5 :: _sp6 :: rest =>
    -- tr fields are filled from the stack, then DROP(7), then the call
    let t := [NativeEvent.deviceRequest]
    if ior ≠ 0 then
      { stack := rest, aborted := some "DeviceRequest failed", trace := t }
    else
      { stack := rest, aborted := none, trace := t }
  | _ => { stack := s, aborted := some "stack underflow", trace := [] }

/-- `mu_usb_close` (src/usb-darwin.c:194): USBInterfaceClose first; only
on its success Release and DROP(1). -/
def mu_usb_close (closeIor : Int) (s : List Int) : MuResult :=
  match s with
  | top :: rest =>
    let t := [NativeEvent.usbInterfaceClose]
    if closeIor ≠ 0 then
      { stack := top :: rest, aborted := some "USBInterfaceClose failed",
        trace := t }
    else
      { stack := rest, aborted := none,
        trace := t ++ [NativeEvent.releaseHandle] }
  | _ => { stack := s, aborted := some "stack underflow", trace := [] }

/-- `mu_usb_control` (src/usb-darwin.c:211): stack effect
(bmRequestType bRequest wValue wIndex wLength buffer dev -- count).
noDataTimeout = 1000, completionTimeout = 4000; DROP(6) before the call;
on failure TOP = 0 then abort, on success TOP = tr.wLenDone. -/
def mu_usb_control (controlIor : Int) (wLenDone : Int) (s : List Int) :
    MuResult :=
  match s with
  | _top :: _st1 :: _st2 :: _st3 :: _sp4 :: _sp5 :: _sp6 :: rest =>
    let t := [NativeEvent.controlRequestTO 1000 4000]
    if controlIor ≠ 0 then
      { stack := 0 :: rest, aborted := some "ControlRequest failed",
        trace := t }
    else
      { stack := wLenDone :: rest, aborted := none, trace := t }
  | _ => { stack := s, aborted := some "stack underflow", trace := [] }

/-- Native outcome of one GetPipeProperties call
(src/usb-darwin.c:250). -/
structure PipeProps where
  ior : Int
  direction : Int
  number : Int
  transferType : Int
  maxPacketSize : Int
  interval : Int
  deriving DecidableEq, Repr

/-- `mu_usb_get_pipe_properties` (src/usb-darwin.c:240): stack effect
(pipe# dev -- direction number transferType maxpacketsize interval).
Aborts before touching the stack on native failure; on success DROP(-3)
then all five slots are written. -/
def mu_usb_get_pipe_properties (pp : PipeProps) (s : List Int) : MuResult :=
  match s with
  | top :: st1 :: rest =>
    let t := [NativeEvent.getPipeProps st1]
    if pp.ior ≠ 0 then
      { stack := top :: st1 :: rest,
        aborted := some "GetPipeProperties failed", trace := t }
    else
      { stack := pp.interval :: pp.maxPacketSize :: pp.transferType ::
                 pp.number :: pp.direction :: rest,
        aborted := none, trace := t }
  | _ => { stack := s, aborted := some "stack underflow", trace := [] }

/-- `mu_usb_read` (src/usb-darwin.c:267): stack effect
(buffer size pipe# dev -- #read).  ReadPipeTO is given the stack size
value and timeouts 100/400 and writes back the actual count `sizeOut`;
on failure abort with the stack untouched; on success DROP(3) then
TOP = sizeOut. -/
def mu_usb_read (readIor : Int) (sizeOut : Int) (s : List Int) : MuResult :=
  match s with
  | top :: st1 :: st2 :: st3 :: rest =>
    let t := [NativeEvent.readPipeTO st1 100 400]
    if readIor ≠ 0 then
      { stack := top :: st1 :: st2 :: st3 :: rest,
        aborted := some "ReadPipe failed", trace := t }
    else
      { stack := sizeOut :: rest, aborted := none, trace := t }
  | _ => { stack := s, aborted := some "stack underflow", trace := [] }

/-- `mu_usb_write` (src/usb-darwin.c:286): stack effect
(buffer size pipe# dev -- ); timeouts 100/400; on failure abort with the
stack untouched; on success DROP(4). -/
def mu_usb_write (writeIor : Int) (s : List Int) : MuResult :=
  match s with
  | top :: st1 :: st2 :: st3 :: rest =>
    let t := [NativeEvent.writePipeTO st1 100 400]
    if writeIor ≠ 0 then
      { stack := top :: st1 :: st2 :: st3 :: rest,
        aborted := some "WritePipe failed", trace := t }
    else
      { stack := rest, aborted := none, trace := t }
  | _ => { stack := s, aborted := some "stack underflow", trace := [] }

/-- Claim C1: when the native service lookup finds no matching interface,
the interface-level find-device consumes its two inputs, pushes the
single not-found flag 0 (net depth decreases by one) and returns
normally, producing no handle. -/
theorem C1_find_device_not_found (nv : FindIntfNative) (top st1 : Int)
    (rest : List Int) (hmk : nv.serviceMatchingOk = true)
    (hns : nv.matchingService = 0) :
    (mu_usb_find_device nv (top :: st1 :: rest)).stack = 0 :: rest ∧
    (mu_usb_find_device nv (top :: st1 :: rest)).aborted = none := by
  simp [mu_usb_find_device, hmk, hns]

theorem C1_witness :
    (mu_usb_find_device ⟨true, 0, 0, true, 0, true, 77, 0⟩ [5, 7, 9]).stack
      = [0, 9] ∧
    (mu_usb_find_device ⟨true, 0, 0, true, 0, true, 77, 0⟩ [5, 7, 9]).aborted
      = none :=
  C1_find_device_not_found ⟨true, 0, 0, true, 0, true, 77, 0⟩ 5 7 [9] rfl rfl

/-- Claim C2: when service lookup, plugin creation, interface query and
interface open all succeed, the interface-level find-device replaces its
two inputs with exactly two outputs, the opened handle below the
all-bits-set flag -1 on top, and returns normally (net depth
unchanged). -/
theorem C2_find_device_success (nv : FindIntfNative) (top st1 : Int)
    (rest : List Int) (hmk : nv.serviceMatchingOk = true)
    (hs : nv.matchingService ≠ 0) (hp1 : nv.pluginIor = 0)
    (hp2 : nv.pluginNonNull = true) (hq1 : nv.queryIor = 0)
    (hq2 : nv.queryNonNull = true) (ho : nv.openIor = 0) :
    (mu_usb_find_device nv (top :: st1 :: rest)).stack =
      -1 :: nv.intfHandle :: rest ∧
    (mu_usb_find_device nv (top :: st1 :: rest)).aborted = none := by
  simp [mu_usb_find_device, hmk, hs, hp1, hp2, hq1, hq2, ho]

theorem C2_witness :
    (mu_usb_find_device ⟨true, 3, 0, true, 0, true, 77, 0⟩ [5, 7, 9]).stack
      = [-1, 77, 9] ∧
    (mu_usb_find_device ⟨true, 3, 0, true, 0, true, 77, 0⟩ [5, 7, 9]).aborted
      = none :=
  C2_find_device_success ⟨true, 3, 0, true, 0, true, 77, 0⟩ 5 7 [9]
    rfl (by decide) rfl rfl rfl rfl rfl

/-- Claim C3: close performs the native close step first; on close
failure it aborts, does not release, and does not consume the handle;
the release and the DROP happen only after a successful close. -/
theorem C3_close_order (closeIor : Int) (top : Int) (rest : List Int) :
    (mu_usb_close closeIor (top :: rest)).trace.head? =
      some NativeEvent.usbInterfaceClose ∧
    (closeIor ≠ 0 →
      (mu_usb_close closeIor (top :: rest)).aborted =
        some "USBInterfaceClose failed" ∧
      (mu_usb_close closeIor (top :: rest)).stack = top :: rest ∧
      NativeEvent.releaseHandle ∉
        (mu_usb_close closeIor (top :: rest)).trace) ∧
    (closeIor = 0 →
      (mu_usb_close closeIor (top :: rest)).aborted = none ∧
      (mu_usb_close closeIor (top :: rest)).stack = rest ∧
      (mu_usb_close closeIor (top :: rest)).trace =
        [NativeEvent.usbInterfaceClose, NativeEvent.releaseHandle]) := by
  by_cases h : closeIor = 0 <;> simp [mu_usb_close, h]

theorem C3_witness :
    (mu_usb_close 1 (9 :: [4])).stack = 9 :: [4] :=
  ((C3_close_order 1 9 [4]).2.1 (by decide)).2.1

/-- Claim C4: control consumes its seven inputs; on native failure it
produces the single output 0 and aborts; on success it produces the
native byte count transferred as its single output and returns
normally. -/
theorem C4_control_result (controlIor wLenDone : Int)
    (a b c d e f g : Int) (rest : List Int) :
    (controlIor ≠ 0 →
      (mu_usb_control controlIor wLenDone
        (a :: b :: c :: d :: e :: f :: g :: rest)).stack = 0 :: rest ∧
      (mu_usb_control controlIor wLenDone
        (a :: b :: c :: d :: e :: f :: g :: rest)).aborted =
        some "ControlRequest failed") ∧
    (controlIor = 0 →
      (mu_usb_control controlIor wLenDone
        (a :: b :: c :: d :: e :: f :: g :: rest)).stack =
        wLenDone :: rest ∧
      (mu_usb_control controlIor wLenDone
        (a :: b :: c :: d :: e :: f :: g :: rest)).aborted = none) := by
  by_cases h : controlIor = 0 <;> simp [mu_usb_control, h]

theorem C4_witness :
    (mu_usb_control 1 33 [10, 11, 12, 13, 14, 15, 16, 17]).stack = [0, 17] :=
  ((C4_control_result 1 33 10 11 12 13 14 15 16 [17]).1 (by decide)).1

/-- Claim C5: on a successful read, the returned byte count is at most
the caller-supplied size, given that the native pipe-read reports an
output length no larger than the input length it was given. -/
theorem C5_read_bound (readIor sizeOut : Int) (top st1 st2 st3 : Int)
    (rest : List Int) (hok : readIor = 0) (hle : sizeOut ≤ st2) :
    (mu_usb_read readIor sizeOut
      (top :: st1 :: st2 :: st3 :: rest)).aborted = none ∧
    (mu_usb_read readIor sizeOut
      (top :: st1 :: st2 :: st3 :: rest)).stack = sizeOut :: rest ∧
    sizeOut ≤ st2 := by
  subst hok
  exact ⟨by simp [mu_usb_read], by simp [mu_usb_read], hle⟩

theorem C5_witness :
    (mu_usb_read 0 3 [10, 2, 8, 12, 13]).aborted = none ∧
    (mu_usb_read 0 3 [10, 2, 8, 12, 13]).stack = [3, 13] ∧
    (3 : Int) ≤ 8 :=
  C5_read_bound 0 3 10 2 8 12 [13] rfl (by decide)

/-- Claim C6: getPipeProperties consumes its two inputs and produces
exactly five outputs, all from the one native query, on success; on
native failure it aborts with the stack untouched, producing no
output. -/
theorem C6_get_pipe_properties_outputs (pp : PipeProps) (top st1 : Int)
    (rest : List Int) :
    (pp.ior = 0 →
      (mu_usb_get_pipe_properties pp (top :: st1 :: rest)).stack =
        pp.interval :: pp.maxPacketSize :: pp.transferType ::
        pp.number :: pp.direction :: rest ∧
      (mu_usb_get_pipe_properties pp (top :: st1 :: rest)).aborted = none ∧
      (mu_usb_get_pipe_properties pp (top :: st1 :: rest)).trace =
        [NativeEvent.getPipeProps st1]) ∧
    (pp.ior ≠ 0 →
      (mu_usb_get_pipe_properties pp (top :: st1 :: rest)).stack =
        top :: st1 :: rest ∧
      (mu_usb_get_pipe_properties pp (top :: st1 :: rest)).aborted =
        some "GetPipeProperties failed" ∧
      (mu_usb_get_pipe_properties pp (top :: st1 :: rest)).trace =
        [NativeEvent.getPipeProps st1]) := by
  by_cases h : pp.ior = 0 <;> simp [mu_usb_get_pipe_properties, h]

theorem C6_witness :
    (mu_usb_get_pipe_properties ⟨0, 1, 2, 3, 64, 5⟩ [9, 8, 7]).stack =
      [5, 64, 3, 2, 1, 7] :=
  ((C6_get_pipe_properties_outputs ⟨0, 1, 2, 3, 64, 5⟩ 9 8 [7]).1 rfl).1

/-- Claim C7: the timeouts handed to the native layer are fixed
constants on every invocation: control passes noDataTimeout 1000 ms and
completionTimeout 4000 ms; read and write each pass a 100 ms data
timeout and a 400 ms completion timeout. -/
theorem C7_fixed_timeouts (controlIor wLenDone readIor sizeOut writeIor :
    Int) (a b c d e f g : Int) (rest : List Int) :
    (mu_usb_control controlIor wLenDone
      (a :: b :: c :: d :: e :: f :: g :: rest)).trace =
      [NativeEvent.controlRequestTO 1000 4000] ∧
    (mu_usb_read readIor sizeOut (a :: b :: c :: d :: rest)).trace =
      [NativeEvent.readPipeTO b 100 400] ∧
    (mu_usb_write writeIor (a :: b :: c :: d :: rest)).trace =
      [NativeEvent.writePipeTO b 100 400] := by
  refine ⟨?_, ?_, ?_⟩
  · by_cases h : controlIor = 0 <;> simp [mu_usb_control, h]
  · by_cases h : readIor = 0 <;> simp [mu_usb_read, h]
  · by_cases h : writeIor = 0 <;> simp [mu_usb_write, h]

/-- Claim C8: the match criteria handed to the native service lookup by
the interface-level find-device are exactly the caller-supplied vendorId
and productId plus the fixed constants interfaceNumber 0 and
configurationValue 1. -/
theorem C8_match_criteria (nv : FindIntfNative) (top st1 : Int)
    (rest : List Int) (hmk : nv.serviceMatchingOk = true) :
    ∀ m, NativeEvent.getMatchingService m ∈
        (mu_usb_find_device nv (top :: st1 :: rest)).trace ↔
      m = [("VendorID", st1), ("ProductID", top),
           ("InterfaceNumber", 0), ("ConfigurationValue", 1)] := by
  intro m
  by_cases h1 : nv.matchingService = 0 <;>
    by_cases h2 : nv.pluginIor ≠ 0 ∨ nv.pluginNonNull = false <;>
      by_cases h3 : nv.queryIor ≠ 0 ∨ nv.queryNonNull = false <;>
        by_cases h4 : nv.openIor = 0 <;>
          simp [mu_usb_find_device, add_number_match, hmk, h1, h2, h3, h4]

theorem C8_witness :
    NativeEvent.getMatchingService
        [("VendorID", 7), ("ProductID", 5),
         ("InterfaceNumber", 0), ("ConfigurationValue", 1)] ∈
      (mu_usb_find_device ⟨true, 0, 0, true, 0, true, 77, 0⟩
        [5, 7, 9]).trace :=
  (C8_match_criteria ⟨true, 0, 0, true, 0, true, 77, 0⟩ 5 7 [9] rfl _).mpr
    rfl

/-- Claim C9: in both find-device variants, once the plugin intermediate
has been successfully created it is released exactly once, on the
success and the query-failure paths alike, and the release follows the
typed-interface query immediately, before the result of the query is
examined. -/
theorem C9_plugin_released_once (nv : FindIntfNative) (nd : FindDevNative)
    (top st1 : Int) (rest : List Int)
    (hi1 : nv.serviceMatchingOk = true) (hi2 : nv.matchingService ≠ 0)
    (hi3 : nv.pluginIor = 0) (hi4 : nv.pluginNonNull = true)
    (hd1 : nd.serviceMatchingOk = true) (hd2 : nd.matchingService ≠ 0)
    (hd3 : nd.pluginIor = 0) (hd4 : nd.pluginNonNull = true) :
    ((mu_usb_find_device nv (top :: st1 :: rest)).trace.count
        NativeEvent.releasePlugin = 1 ∧
      ∃ pre post, (mu_usb_find_device nv (top :: st1 :: rest)).trace =
        pre ++ NativeEvent.queryTypedInterface ::
          NativeEvent.releasePlugin :: post) ∧
    ((mu_usb_find_device_dev nd (top :: st1 :: rest)).trace.count
        NativeEvent.releasePlugin = 1 ∧
      ∃ pre post, (mu_usb_find_device_dev nd (top :: st1 :: rest)).trace =
        pre ++ NativeEvent.queryTypedInterface ::
          NativeEvent.releasePlugin :: post) := by
  constructor
  · by_cases h3 : nv.queryIor ≠ 0 ∨ nv.queryNonNull = false
    · constructor
      · simp [mu_usb_find_device, hi1, hi2, hi3, hi4, h3, List.count_cons]
      · refine ⟨[NativeEvent.serviceMatching "IOUSBInterface",
          NativeEvent.getMatchingService
            (add_number_match (add_number_match (add_number_match
              (add_number_match [] "VendorID" st1) "ProductID" top)
              "InterfaceNumber" 0) "ConfigurationValue" 1),
          NativeEvent.createPlugin], [], ?_⟩
        simp [mu_usb_find_device, hi1, hi2, hi3, hi4, h3]
    · by_cases h4 : nv.openIor = 0 <;>
      · constructor
        · simp [mu_usb_find_device, hi1, hi2, hi3, hi4, h3, h4,
            List.count_cons]
        · refine ⟨[NativeEvent.serviceMatching "IOUSBInterface",
            NativeEvent.getMatchingService
              (add_number_match (add_number_match (add_number_match
                (add_number_match [] "VendorID" st1) "ProductID" top)
                "InterfaceNumber" 0) "ConfigurationValue" 1),
            NativeEvent.createPlugin], [NativeEvent.usbInterfaceOpen], ?_⟩
          simp [mu_usb_find_device, hi1, hi2, hi3, hi4, h3, h4]
  · by_cases h3 : nd.queryIor ≠ 0 ∨ nd.queryNonNull = false <;>
    · constructor
      · simp [mu_usb_find_device_dev, hd1, hd2, hd3, hd4, h3,
          List.count_cons]
      · refine ⟨[NativeEvent.serviceMatching "IOUSBDevice",
          NativeEvent.getMatchingService
            (add_number_match (add_number_match [] "VendorID" st1)
              "ProductID" top),
          NativeEvent.createPlugin], [], ?_⟩
        simp [mu_usb_find_device_dev, hd1, hd2, hd3, hd4, h3]

theorem C9_witness :
    (mu_usb_find_device ⟨true, 3, 0, true, 1, true, 77, 0⟩
      [5, 7, 9]).trace.count NativeEvent.releasePlugin = 1 :=
  (C9_plugin_released_once ⟨true, 3, 0, true, 1, true, 77, 0⟩
    ⟨true, 3, 0, true, 0, true, 88⟩ 5 7 [9]
    rfl (by decide) rfl rfl rfl (by decide) rfl rfl).1.1

/-- Claim C10: device-request pops all seven inputs before issuing the
native request, so on native failure the abort happens with the inputs
already consumed; close, read and write instead leave their inputs on
the stack on their failure paths. -/
theorem C10_device_request_pops_first (ior closeIor readIor writeIor
    sizeOut : Int) (a b c d e f g : Int) (rest : List Int)
    (hior : ior ≠ 0) (hc : closeIor ≠ 0) (hr : readIor ≠ 0)
    (hw : writeIor ≠ 0) :
    (mu_usb_device_request ior
      (a :: b :: c :: d :: e :: f :: g :: rest)).stack = rest ∧
    (mu_usb_device_request ior
      (a :: b :: c :: d :: e :: f :: g :: rest)).aborted =
      some "DeviceRequest failed" ∧
    (mu_usb_close closeIor (a :: rest)).stack = a :: rest ∧
    (mu_usb_read readIor sizeOut (a :: b :: c :: d :: rest)).stack =
      a :: b :: c :: d :: rest ∧
    (mu_usb_write writeIor (a :: b :: c :: d :: rest)).stack =
      a :: b :: c :: d :: rest := by
  simp [mu_usb_device_request, mu_usb_close, mu_usb_read, mu_usb_write,
    hior, hc, hr, hw]

theorem C10_witness :
    (mu_usb_device_request 1 [10, 11, 12, 13, 14, 15, 16, 17]).stack =
      [17] :=
  (C10_device_request_pops_first 1 1 1 1 0 10 11 12 13 14 15 16 [17]
    (by decide) (by decide) (by decide) (by decide)).1
